import Mathlib

/-!
Verification of the spektate backend configuration resolver
(src/backend/src/config.ts) and author resolver (src/backend/src/lib/author.ts).

Environment variables are modelled as a record of optional strings (a value of
type Option String stands for a possibly-undefined process.env entry).  The
TypeScript union types for pipeline and repository configurations are modelled
structurally, as records of optional fields, matching the JavaScript runtime
representation on which the unchecked casts in the validity predicates operate.
-/

namespace Spektate

/-- JavaScript truthiness of a possibly-undefined string value: undefined and
the empty string are falsy, every other string is truthy. -/
def truthy : Option String → Bool
  | none => false
  | some s => !s.isEmpty

/-- JavaScript logical-or of two possibly-undefined string values, as in
a || b: yields a when a is truthy, otherwise b. -/
def jsOrStr (a b : Option String) : Option String :=
  match a with
  | some s => if s.isEmpty then b else some s
  | none => b

/-- JavaScript logical-or of a possibly-undefined string with a definite
default, as in process.env.X || d. -/
def jsOrDefault (a : Option String) (d : String) : String :=
  match a with
  | some s => if s.isEmpty then d else s
  | none => d

/-- The process environment read by config.ts, one optional string per
REACT_APP_* variable the file mentions. -/
structure Env where
  azdoOrg : Option String := none
  azdoProject : Option String := none
  azdoAccessToken : Option String := none
  githubToken : Option String := none
  gitlabToken : Option String := none
  azdoManifestRepo : Option String := none
  githubManifestRepo : Option String := none
  githubHldRepo : Option String := none
  githubSourceRepo : Option String := none
  gitlabSourceProjectId : Option String := none
  gitlabHldProjectId : Option String := none
  gitlabManifestProjectId : Option String := none
  storageAccessKey : Option String := none
  storageAccountName : Option String := none
  storagePartitionKey : Option String := none
  storageTableName : Option String := none
  cacheRefreshIntervalInSec : Option String := none
deriving DecidableEq, Repr

/-- PipelineType from config.ts (AZDO = 0, GITHUB_ACTIONS, GITLAB). -/
inductive PipelineType where
  | AZDO
  | GITHUB_ACTIONS
  | GITLAB
deriving DecidableEq, Repr, BEq

/-- RepositoryType from config.ts (AZDO = 0, GITHUB, GITLAB). -/
inductive RepositoryType where
  | AZDO
  | GITHUB
  | GITLAB
deriving DecidableEq, Repr, BEq

/-- Structural model of the union
IAzDOPipelineConfig | IGithubActionsConfig | IGitlabPipelineConfig: a record of
the fields any member may carry, each possibly undefined, as a JavaScript
object literal is at runtime. -/
structure PipelineConfigObj where
  org : Option String := none
  project : Option String := none
  accessToken : Option String := none
deriving DecidableEq, Repr

/-- Structural model of the union
IAzDORepoConfig | IGithubRepoConfig | IGitlabRepoConfig, as a record of the
fields any member may carry, each possibly undefined. -/
structure RepoConfigObj where
  accessToken : Option String := none
  manifestRepo : Option String := none
  sourceRepo : Option String := none
  hldRepo : Option String := none
  sourceRepoProjectId : Option String := none
  hldRepoProjectId : Option String := none
  manifestProjectId : Option String := none
deriving DecidableEq, Repr

/-- IConfig from config.ts. -/
structure Config where
  pipelineConfig : PipelineConfigObj
  repoConfig : RepoConfigObj
  storageAccessKey : String
  storageAccountName : String
  storageTableName : String
  storagePartitionKey : String
  dockerVersion : Option String := none
  repoType : RepositoryType
  pipelineType : PipelineType
deriving DecidableEq, Repr

/-- getPipelineConfig from config.ts: first-match selection over
AZDO_ORG and AZDO_PROJECT, then GITHUB_TOKEN, then GITLAB_TOKEN.  The
pipelineType local starts at 0 (= AZDO) and is only reassigned inside a
matching branch; the config component stays undefined when nothing matches. -/
def getPipelineConfig (e : Env) : PipelineType × Option PipelineConfigObj :=
  if truthy e.azdoOrg && truthy e.azdoProject then
    (PipelineType.AZDO,
     some { org := e.azdoOrg, project := e.azdoProject,
            accessToken := e.azdoAccessToken })
  else if truthy e.githubToken then
    (PipelineType.GITHUB_ACTIONS, some { accessToken := e.githubToken })
  else if truthy e.gitlabToken then
    (PipelineType.GITLAB, some { accessToken := e.gitlabToken })
  else
    (PipelineType.AZDO, none)

/-- getReposConfig from config.ts: first-match selection over
AZDO_MANIFEST_REPO, then the three GITHUB_*_REPO variables, then the three
GITLAB_*_PROJECT_ID variables together with GITLAB_TOKEN. -/
def getReposConfig (e : Env) : RepositoryType × Option RepoConfigObj :=
  if truthy e.azdoManifestRepo then
    (RepositoryType.AZDO,
     some { manifestRepo := e.azdoManifestRepo,
            accessToken := e.azdoAccessToken })
  else if truthy e.githubManifestRepo && truthy e.githubHldRepo &&
          truthy e.githubSourceRepo then
    (RepositoryType.GITHUB,
     some { manifestRepo := e.githubManifestRepo,
            hldRepo := e.githubHldRepo,
            sourceRepo := e.githubSourceRepo,
            accessToken := e.githubToken })
  else if truthy e.gitlabSourceProjectId && truthy e.gitlabHldProjectId &&
          truthy e.gitlabManifestProjectId && truthy e.gitlabToken then
    (RepositoryType.GITLAB,
     some { manifestProjectId := e.gitlabManifestProjectId,
            hldRepoProjectId := e.gitlabHldProjectId,
            sourceRepoProjectId := e.gitlabSourceProjectId,
            accessToken := e.gitlabToken })
  else
    (RepositoryType.AZDO, none)

/-- getConfig from config.ts: succeeds with an IConfig when both
sub-resolutions produced a configuration, otherwise throws. -/
def getConfig (e : Env) : Except String Config :=
  let p := getPipelineConfig e
  let r := getReposConfig e
  match p.2, r.2 with
  | some pc, some rc =>
      Except.ok
        { pipelineConfig := pc
          repoConfig := rc
          storageAccessKey := jsOrDefault e.storageAccessKey ""
          storageAccountName := jsOrDefault e.storageAccountName ""
          storagePartitionKey := jsOrDefault e.storagePartitionKey ""
          storageTableName := jsOrDefault e.storageTableName ""
          repoType := r.1
          pipelineType := p.1 }
  | _, _ => Except.error "Pipeline and/or repository could not be recognized."

/-- The longest leading run of decimal digits of a character list, as a
natural number; none when there is no leading digit (parseInt returns NaN). -/
def parseDigits (cs : List Char) : Option Nat :=
  let ds := cs.takeWhile Char.isDigit
  if ds.isEmpty then none
  else some (ds.foldl (fun acc c => acc * 10 + (c.toNat - 48)) 0)

/-- JavaScript parseInt(s, 10): skip leading whitespace, read an optional
sign, then the longest run of decimal digits; NaN (none) when no digit
follows. -/
def parseIntJS (s : String) : Option Int :=
  match s.data.dropWhile Char.isWhitespace with
  | '-' :: rest => (parseDigits rest).map fun n => -(n : Int)
  | '+' :: rest => (parseDigits rest).map fun n => (n : Int)
  | cs => (parseDigits cs).map fun n => (n : Int)

/-- cacheRefreshInterval from config.ts: parse the cache variable (default
string "30") and return the value in milliseconds, 30000 on parse failure. -/
def cacheRefreshInterval (e : Env) : Int :=
  let interval := jsOrDefault e.cacheRefreshIntervalInSec "30"
  match parseIntJS interval with
  | none => 30 * 1000
  | some v => v * 1000

/-- The check isAzdo performs on a resolved config: pipelineType is AZDO and
the fields read through the casts to the AzDO shapes are defined; on the
structural model the undefined tests are isSome tests. -/
def azdoValid (config : Config) : Bool :=
  (config.pipelineType == PipelineType.AZDO) &&
  config.pipelineConfig.org.isSome &&
  config.pipelineConfig.project.isSome &&
  config.repoConfig.manifestRepo.isSome

/-- The check isGithubActions performs on a resolved config. -/
def githubActionsValid (config : Config) : Bool :=
  (config.pipelineType == PipelineType.GITHUB_ACTIONS) &&
  config.repoConfig.sourceRepo.isSome &&
  config.repoConfig.hldRepo.isSome &&
  config.repoConfig.manifestRepo.isSome

/-- The check isGitlab performs on a resolved config. -/
def gitlabValid (config : Config) : Bool :=
  (config.pipelineType == PipelineType.GITLAB) &&
  config.repoConfig.sourceRepoProjectId.isSome &&
  config.repoConfig.hldRepoProjectId.isSome &&
  config.repoConfig.manifestProjectId.isSome

/-- isAzdo from config.ts: resolve the config, then apply azdoValid. -/
def isAzdo (e : Env) : Except String Bool :=
  (getConfig e).map azdoValid

/-- isGithubActions from config.ts. -/
def isGithubActions (e : Env) : Except String Bool :=
  (getConfig e).map githubActionsValid

/-- isGitlab from config.ts. -/
def isGitlab (e : Env) : Except String Bool :=
  (getConfig e).map gitlabValid

/-- isConfigValid from config.ts: at least one provider predicate holds and
the four storage strings are truthy (non-empty). -/
def isConfigValid (e : Env) : Except String Bool := do
  let config ← getConfig e
  let a ← isAzdo e
  let g ← isGithubActions e
  let l ← isGitlab e
  pure ((a || g || l) &&
    !config.storageAccountName.isEmpty &&
    !config.storageAccessKey.isEmpty &&
    !config.storageTableName.isEmpty &&
    !config.storagePartitionKey.isEmpty)

/-- A build result carried by a deployment: IBuild as used by author.ts,
optionally carrying a commit hash (sourceVersion) and a repository reference.
The repository-reference type R is the external union
IAzureDevOpsRepo | IGitHub | IGitlabRepo, kept abstract. -/
structure Build (R : Type) where
  sourceVersion : Option String := none
  repository : Option R := none
deriving DecidableEq, Repr

/-- Modelled from the spec: IDeploymentData comes from lib/common.ts, which is
not under src/.  Per the spec data model it optionally carries
srcToDockerBuild and hldToManifestBuild (each optionally carrying a commit
hash and a repository reference) and raw sourceRepo and hldRepo URL
strings. -/
structure DeploymentData (R : Type) where
  srcToDockerBuild : Option (Build R) := none
  hldToManifestBuild : Option (Build R) := none
  sourceRepo : Option String := none
  hldRepo : Option String := none
deriving DecidableEq, Repr

/-- Modelled from the spec: author.ts reads sourceRepoAccessToken and
pipelineAccessToken off the resolved config; the config.ts under src/ does
not declare these fields, so the config consumed by the author resolver is
modelled as the pair of optional tokens the spec describes (the source-repo
access token and the pipeline access token of the resolved config). -/
structure AuthorConfig where
  sourceRepoAccessToken : Option String := none
  pipelineAccessToken : Option String := none
deriving DecidableEq, Repr

/-- Observable outcome of the author resolver: either the external
fetchAuthor call with its three arguments, or the log-and-return-undefined
outcome when no usable (commit, repository) pair was assembled. -/
inductive FetchOutcome (R : Type) where
  | fetch (repo : R) (commit : String) (accessToken : Option String)
  | noAuthor
deriving DecidableEq, Repr

/-- JavaScript logical-or of two possibly-undefined object references, as in
a || b where both sides are objects or undefined: objects are always
truthy. -/
def jsOrObj {R : Type} (a b : Option R) : Option R :=
  match a with
  | some r => some r
  | none => b

namespace Author

/-- The exported get of author.ts (the author resolver), with the external
getRepositoryFromURL passed as a function and the external fetchAuthor call
reified as a FetchOutcome.fetch value.  commit is
srcToDockerBuild?.sourceVersion || hldToManifestBuild?.sourceVersion, repo is
the corresponding repository fallback; when repo is still unset, a truthy
sourceRepo (and then a truthy hldRepo) URL is resolved externally and commit
is overwritten with the matching sourceVersion; the fetch happens only when
commit and repo are both truthy. -/
def get {R : Type} (getRepositoryFromURL : String → Option R)
    (config : AuthorConfig) (deployment : DeploymentData R) : FetchOutcome R :=
  let commit0 :=
    jsOrStr (deployment.srcToDockerBuild.bind fun b => b.sourceVersion)
      (deployment.hldToManifestBuild.bind fun b => b.sourceVersion)
  let repo0 : Option R :=
    jsOrObj (deployment.srcToDockerBuild.bind fun b => b.repository)
      (deployment.hldToManifestBuild.bind fun b => b.repository)
  let step1 : Option String × Option R :=
    match repo0, deployment.sourceRepo with
    | none, some u =>
        if u.isEmpty then (commit0, none)
        else (deployment.srcToDockerBuild.bind fun b => b.sourceVersion,
              getRepositoryFromURL u)
    | _, _ => (commit0, repo0)
  let step2 : Option String × Option R :=
    match step1.2, deployment.hldRepo with
    | none, some u =>
        if u.isEmpty then step1
        else (deployment.hldToManifestBuild.bind fun b => b.sourceVersion,
              getRepositoryFromURL u)
    | _, _ => step1
  match step2.1, step2.2 with
  | some c, some r =>
      if c.isEmpty then FetchOutcome.noAuthor
      else
        FetchOutcome.fetch r c
          (jsOrStr config.sourceRepoAccessToken config.pipelineAccessToken)
  | _, _ => FetchOutcome.noAuthor

end Author

/-- The three provider families, used to state the one-provider claims. -/
inductive Provider where
  | azdo
  | github
  | gitlab
deriving DecidableEq, Repr

/-- The required pipeline environment-variable group of a provider, read off
the guards of getPipelineConfig. -/
def pipelineGroupSat : Provider → Env → Bool
  | .azdo, e => truthy e.azdoOrg && truthy e.azdoProject
  | .github, e => truthy e.githubToken
  | .gitlab, e => truthy e.gitlabToken

/-- The required repository environment-variable group of a provider, read
off the guards of getReposConfig. -/
def repoGroupSat : Provider → Env → Bool
  | .azdo, e => truthy e.azdoManifestRepo
  | .github, e =>
      truthy e.githubManifestRepo && truthy e.githubHldRepo &&
      truthy e.githubSourceRepo
  | .gitlab, e =>
      truthy e.gitlabSourceProjectId && truthy e.gitlabHldProjectId &&
      truthy e.gitlabManifestProjectId && truthy e.gitlabToken

/-- The PipelineType tag of a provider. -/
def providerPipelineType : Provider → PipelineType
  | .azdo => .AZDO
  | .github => .GITHUB_ACTIONS
  | .gitlab => .GITLAB

/-- The RepositoryType tag of a provider. -/
def providerRepoType : Provider → RepositoryType
  | .azdo => .AZDO
  | .github => .GITHUB
  | .gitlab => .GITLAB

/-- The validity predicate of a provider. -/
def providerPred : Provider → Env → Except String Bool
  | .azdo => isAzdo
  | .github => isGithubActions
  | .gitlab => isGitlab

/-! ## Helper lemmas -/

theorem truthy_isSome {o : Option String} (h : truthy o = true) :
    o.isSome = true := by
  cases o <;> simp_all [truthy]

theorem jsOrStr_eq_ite (a b : Option String) :
    jsOrStr a b = if truthy a = true then a else b := by
  cases a <;> simp [jsOrStr, truthy]
  split <;> simp_all

theorem ne_empty_iff (s : String) : s ≠ "" ↔ s.isEmpty = false := by
  constructor
  · intro h
    cases hh : s.isEmpty
    · rfl
    · exact absurd ((String.isEmpty_iff s).mp hh) h
  · intro h he
    subst he
    exact absurd h (by decide)

/-! ## Claims -/

/-- C6: Pipeline selection is first-match-wins in the fixed order Azure
DevOps, then GitHub Actions, then GitLab: when both the organization and
project variables are set the Azure DevOps pipeline is selected regardless of
the other tokens; otherwise a set GitHub token selects GitHub Actions
regardless of the GitLab token; otherwise a set GitLab token selects GitLab;
otherwise the pipeline config is absent. -/
theorem getPipelineConfig_precedence (e : Env) :
    ((truthy e.azdoOrg && truthy e.azdoProject) = true →
      getPipelineConfig e = (PipelineType.AZDO,
        some { org := e.azdoOrg, project := e.azdoProject,
               accessToken := e.azdoAccessToken })) ∧
    ((truthy e.azdoOrg && truthy e.azdoProject) = false →
      truthy e.githubToken = true →
      getPipelineConfig e = (PipelineType.GITHUB_ACTIONS,
        some { accessToken := e.githubToken })) ∧
    ((truthy e.azdoOrg && truthy e.azdoProject) = false →
      truthy e.githubToken = false → truthy e.gitlabToken = true →
      getPipelineConfig e = (PipelineType.GITLAB,
        some { accessToken := e.gitlabToken })) ∧
    ((truthy e.azdoOrg && truthy e.azdoProject) = false →
      truthy e.githubToken = false → truthy e.gitlabToken = false →
      (getPipelineConfig e).2 = none) := by
  refine ⟨?_, ?_, ?_, ?_⟩ <;> intros <;> simp [getPipelineConfig, *]

/-- Witness for C6: with every pipeline variable set, Azure DevOps wins. -/
theorem getPipelineConfig_precedence_witness :
    getPipelineConfig
      { azdoOrg := some "o", azdoProject := some "p",
        githubToken := some "g", gitlabToken := some "l" } =
    (PipelineType.AZDO,
     some { org := some "o", project := some "p", accessToken := none }) :=
  (getPipelineConfig_precedence
    { azdoOrg := some "o", azdoProject := some "p",
      githubToken := some "g", gitlabToken := some "l" }).1 (by decide)

/-- C7: Repository selection is first-match-wins in the fixed order Azure
DevOps, then GitHub, then GitLab: a set manifest-repo variable selects the
Azure DevOps repo config regardless of the other groups; otherwise the three
GitHub repo variables together select the GitHub repo config; otherwise the
three GitLab project-id variables together with the GitLab token select the
GitLab repo config; otherwise the repo config is absent. -/
theorem getReposConfig_precedence (e : Env) :
    (truthy e.azdoManifestRepo = true →
      getReposConfig e = (RepositoryType.AZDO,
        some { manifestRepo := e.azdoManifestRepo,
               accessToken := e.azdoAccessToken })) ∧
    (truthy e.azdoManifestRepo = false →
      (truthy e.githubManifestRepo && truthy e.githubHldRepo &&
       truthy e.githubSourceRepo) = true →
      getReposConfig e = (RepositoryType.GITHUB,
        some { manifestRepo := e.githubManifestRepo,
               hldRepo := e.githubHldRepo,
               sourceRepo := e.githubSourceRepo,
               accessToken := e.githubToken })) ∧
    (truthy e.azdoManifestRepo = false →
      (truthy e.githubManifestRepo && truthy e.githubHldRepo &&
       truthy e.githubSourceRepo) = false →
      (truthy e.gitlabSourceProjectId && truthy e.gitlabHldProjectId &&
       truthy e.gitlabManifestProjectId && truthy e.gitlabToken) = true →
      getReposConfig e = (RepositoryType.GITLAB,
        some { manifestProjectId := e.gitlabManifestProjectId,
               hldRepoProjectId := e.gitlabHldProjectId,
               sourceRepoProjectId := e.gitlabSourceProjectId,
               accessToken := e.gitlabToken })) ∧
    (truthy e.azdoManifestRepo = false →
      (truthy e.githubManifestRepo && truthy e.githubHldRepo &&
       truthy e.githubSourceRepo) = false →
      (truthy e.gitlabSourceProjectId && truthy e.gitlabHldProjectId &&
       truthy e.gitlabManifestProjectId && truthy e.gitlabToken) = false →
      (getReposConfig e).2 = none) := by
  refine ⟨?_, ?_, ?_, ?_⟩ <;> intros <;> simp [getReposConfig, *]

/-- Witness for C7: with every repo group fully set, Azure DevOps wins. -/
theorem getReposConfig_precedence_witness :
    getReposConfig
      { azdoManifestRepo := some "m", githubManifestRepo := some "gm",
        githubHldRepo := some "gh", githubSourceRepo := some "gs",
        gitlabSourceProjectId := some "1", gitlabHldProjectId := some "2",
        gitlabManifestProjectId := some "3", gitlabToken := some "t" } =
    (RepositoryType.AZDO,
     some { manifestRepo := some "m", accessToken := none }) :=
  (getReposConfig_precedence
    { azdoManifestRepo := some "m", githubManifestRepo := some "gm",
      githubHldRepo := some "gh", githubSourceRepo := some "gs",
      gitlabSourceProjectId := some "1", gitlabHldProjectId := some "2",
      gitlabManifestProjectId := some "3", gitlabToken := some "t" }).1
    (by decide)

/-- C3: getConfig returns a Config exactly when both the pipeline
sub-resolution and the repository sub-resolution produce a configuration;
when either is absent it throws the error
"Pipeline and/or repository could not be recognized." and constructs no
Config. -/
theorem getConfig_iff_subresolutions (e : Env) :
    (((getPipelineConfig e).2.isSome = true ∧
      (getReposConfig e).2.isSome = true) →
      ∃ c, getConfig e = Except.ok c) ∧
    (((getPipelineConfig e).2 = none ∨ (getReposConfig e).2 = none) →
      getConfig e = Except.error
        "Pipeline and/or repository could not be recognized.") := by
  constructor
  · rintro ⟨h1, h2⟩
    rcases hp : (getPipelineConfig e).2 with _ | pc
    · rw [hp] at h1; simp at h1
    rcases hr : (getReposConfig e).2 with _ | rc
    · rw [hr] at h2; simp at h2
    refine ⟨{ pipelineConfig := pc, repoConfig := rc,
              storageAccessKey := jsOrDefault e.storageAccessKey "",
              storageAccountName := jsOrDefault e.storageAccountName "",
              storagePartitionKey := jsOrDefault e.storagePartitionKey "",
              storageTableName := jsOrDefault e.storageTableName "",
              repoType := (getReposConfig e).1,
              pipelineType := (getPipelineConfig e).1 }, ?_⟩
    simp only [getConfig]
    rw [hp, hr]
  · intro h
    rcases hp : (getPipelineConfig e).2 with _ | pc <;>
      rcases hr : (getReposConfig e).2 with _ | rc <;>
      simp only [getConfig] <;> rw [hp, hr]
    rw [hp, hr] at h
    simp at h

/-- Witness for C3: a fully Azure DevOps environment yields a Config; the
empty environment throws the recognition error. -/
theorem getConfig_iff_subresolutions_witness :
    (∃ c, getConfig
      { azdoOrg := some "o", azdoProject := some "p",
        azdoManifestRepo := some "m" } = Except.ok c) ∧
    getConfig {} = Except.error
      "Pipeline and/or repository could not be recognized." :=
  ⟨(getConfig_iff_subresolutions
      { azdoOrg := some "o", azdoProject := some "p",
        azdoManifestRepo := some "m" }).1 (by constructor <;> decide),
   (getConfig_iff_subresolutions {}).2 (Or.inl rfl)⟩

/-- C4: cacheRefreshInterval returns 30000 when the cache-interval variable
is unset, empty, or non-numeric such as "abc"; for every string parsing to
the integer n it returns n*1000; the function is total, so a malformed value
never raises an error. -/
theorem cacheRefreshInterval_spec :
    (∀ e : Env, e.cacheRefreshIntervalInSec = none →
        cacheRefreshInterval e = 30000) ∧
    (∀ e : Env, e.cacheRefreshIntervalInSec = some "" →
        cacheRefreshInterval e = 30000) ∧
    (∀ e : Env, e.cacheRefreshIntervalInSec = some "abc" →
        cacheRefreshInterval e = 30000) ∧
    (∀ (e : Env) (s : String) (n : Int),
        e.cacheRefreshIntervalInSec = some s → parseIntJS s = some n →
        cacheRefreshInterval e = n * 1000) := by
  refine ⟨?_, ?_, ?_, ?_⟩
  · intro e h; simp [cacheRefreshInterval, h, jsOrDefault]; decide
  · intro e h; simp [cacheRefreshInterval, h, jsOrDefault]; decide
  · intro e h; simp [cacheRefreshInterval, h, jsOrDefault]; decide
  · intro e s n h1 h2
    rcases hs : s.isEmpty with _ | _
    · simp [cacheRefreshInterval, h1, jsOrDefault, hs, h2]
    · have hs2 : s = "" := (String.isEmpty_iff s).mp hs
      subst hs2
      rw [show parseIntJS "" = none from rfl] at h2
      exact Option.noConfusion h2

/-- Witness for C4: a set value of "42" yields 42000 milliseconds and an
unset value yields the 30000 default. -/
theorem cacheRefreshInterval_spec_witness :
    cacheRefreshInterval { cacheRefreshIntervalInSec := some "42" } =
      42 * 1000 ∧
    cacheRefreshInterval {} = 30000 :=
  ⟨cacheRefreshInterval_spec.2.2.2
      { cacheRefreshIntervalInSec := some "42" } "42" 42 rfl (by decide),
   cacheRefreshInterval_spec.1 {} rfl⟩

/-- C2: when exactly one provider has both its pipeline group and its
repository group of environment variables satisfied and the groups of the
other two providers are unsatisfied, getConfig returns a Config whose
pipelineType and repoType are tagged with that provider, the corresponding
validity predicate returns true, and the other two return false. -/
theorem getConfig_single_provider (e : Env) (p : Provider)
    (hp : pipelineGroupSat p e = true) (hr : repoGroupSat p e = true)
    (ho : ∀ q, q ≠ p →
      pipelineGroupSat q e = false ∧ repoGroupSat q e = false) :
    ∃ c, getConfig e = Except.ok c ∧
      c.pipelineType = providerPipelineType p ∧
      c.repoType = providerRepoType p ∧
      providerPred p e = Except.ok true ∧
      (∀ q, q ≠ p → providerPred q e = Except.ok false) := by
  cases p with
  | azdo =>
    simp only [pipelineGroupSat] at hp
    simp only [repoGroupSat] at hr
    have hC : getConfig e = Except.ok
        { pipelineConfig := { org := e.azdoOrg, project := e.azdoProject,
                              accessToken := e.azdoAccessToken },
          repoConfig := { manifestRepo := e.azdoManifestRepo,
                          accessToken := e.azdoAccessToken },
          storageAccessKey := jsOrDefault e.storageAccessKey "",
          storageAccountName := jsOrDefault e.storageAccountName "",
          storagePartitionKey := jsOrDefault e.storagePartitionKey "",
          storageTableName := jsOrDefault e.storageTableName "",
          repoType := RepositoryType.AZDO,
          pipelineType := PipelineType.AZDO } := by
      have hP : getPipelineConfig e = (PipelineType.AZDO,
          some { org := e.azdoOrg, project := e.azdoProject,
                 accessToken := e.azdoAccessToken }) := by
        simp [getPipelineConfig, hp]
      have hR : getReposConfig e = (RepositoryType.AZDO,
          some { manifestRepo := e.azdoManifestRepo,
                 accessToken := e.azdoAccessToken }) := by
        simp [getReposConfig, hr]
      simp [getConfig, hP, hR]
    rw [Bool.and_eq_true] at hp
    obtain ⟨h1, h2⟩ := hp
    refine ⟨_, hC, rfl, rfl, ?_, ?_⟩
    · simp [providerPred, isAzdo, azdoValid, hC, Except.map,
        show (PipelineType.AZDO == PipelineType.AZDO) = true from rfl,
        truthy_isSome h1, truthy_isSome h2, truthy_isSome hr]
    · intro q hq
      cases q with
      | azdo => exact absurd rfl hq
      | github =>
        simp [providerPred, isGithubActions, githubActionsValid, hC, Except.map,
          show (PipelineType.AZDO == PipelineType.GITHUB_ACTIONS) = false
            from rfl]
      | gitlab =>
        simp [providerPred, isGitlab, gitlabValid, hC, Except.map,
          show (PipelineType.AZDO == PipelineType.GITLAB) = false from rfl]
  | github =>
    simp only [pipelineGroupSat] at hp
    simp only [repoGroupSat] at hr
    obtain ⟨hap, har⟩ := ho .azdo (by simp)
    simp only [pipelineGroupSat] at hap
    simp only [repoGroupSat] at har
    have hC : getConfig e = Except.ok
        { pipelineConfig := { accessToken := e.githubToken },
          repoConfig := { manifestRepo := e.githubManifestRepo,
                          hldRepo := e.githubHldRepo,
                          sourceRepo := e.githubSourceRepo,
                          accessToken := e.githubToken },
          storageAccessKey := jsOrDefault e.storageAccessKey "",
          storageAccountName := jsOrDefault e.storageAccountName "",
          storagePartitionKey := jsOrDefault e.storagePartitionKey "",
          storageTableName := jsOrDefault e.storageTableName "",
          repoType := RepositoryType.GITHUB,
          pipelineType := PipelineType.GITHUB_ACTIONS } := by
      have hP : getPipelineConfig e = (PipelineType.GITHUB_ACTIONS,
          some { accessToken := e.githubToken }) := by
        simp [getPipelineConfig, hap, hp]
      have hR : getReposConfig e = (RepositoryType.GITHUB,
          some { manifestRepo := e.githubManifestRepo,
                 hldRepo := e.githubHldRepo,
                 sourceRepo := e.githubSourceRepo,
                 accessToken := e.githubToken }) := by
        simp [getReposConfig, har, hr]
      simp [getConfig, hP, hR]
    simp only [Bool.and_eq_true] at hr
    obtain ⟨⟨hm, hh⟩, hs⟩ := hr
    refine ⟨_, hC, rfl, rfl, ?_, ?_⟩
    · simp [providerPred, isGithubActions, githubActionsValid, hC, Except.map,
        show (PipelineType.GITHUB_ACTIONS == PipelineType.GITHUB_ACTIONS) =
          true from rfl,
        truthy_isSome hm, truthy_isSome hh, truthy_isSome hs]
    · intro q hq
      cases q with
      | github => exact absurd rfl hq
      | azdo =>
        simp [providerPred, isAzdo, azdoValid, hC, Except.map,
          show (PipelineType.GITHUB_ACTIONS == PipelineType.AZDO) = false
            from rfl]
      | gitlab =>
        simp [providerPred, isGitlab, gitlabValid, hC, Except.map,
          show (PipelineType.GITHUB_ACTIONS == PipelineType.GITLAB) = false
            from rfl]
  | gitlab =>
    simp only [pipelineGroupSat] at hp
    simp only [repoGroupSat] at hr
    obtain ⟨hap, har⟩ := ho .azdo (by simp)
    obtain ⟨hgp, hgr⟩ := ho .github (by simp)
    simp only [pipelineGroupSat] at hap hgp
    simp only [repoGroupSat] at har hgr
    have hC : getConfig e = Except.ok
        { pipelineConfig := { accessToken := e.gitlabToken },
          repoConfig := { manifestProjectId := e.gitlabManifestProjectId,
                          hldRepoProjectId := e.gitlabHldProjectId,
                          sourceRepoProjectId := e.gitlabSourceProjectId,
                          accessToken := e.gitlabToken },
          storageAccessKey := jsOrDefault e.storageAccessKey "",
          storageAccountName := jsOrDefault e.storageAccountName "",
          storagePartitionKey := jsOrDefault e.storagePartitionKey "",
          storageTableName := jsOrDefault e.storageTableName "",
          repoType := RepositoryType.GITLAB,
          pipelineType := PipelineType.GITLAB } := by
      have hP : getPipelineConfig e = (PipelineType.GITLAB,
          some { accessToken := e.gitlabToken }) := by
        simp [getPipelineConfig, hap, hgp, hp]
      have hR : getReposConfig e = (RepositoryType.GITLAB,
          some { manifestProjectId := e.gitlabManifestProjectId,
                 hldRepoProjectId := e.gitlabHldProjectId,
                 sourceRepoProjectId := e.gitlabSourceProjectId,
                 accessToken := e.gitlabToken }) := by
        simp [getReposConfig, har, hgr, hr]
      simp [getConfig, hP, hR]
    simp only [Bool.and_eq_true] at hr
    obtain ⟨⟨⟨hs, hh⟩, hm⟩, ht⟩ := hr
    refine ⟨_, hC, rfl, rfl, ?_, ?_⟩
    · simp [providerPred, isGitlab, gitlabValid, hC, Except.map,
        show (PipelineType.GITLAB == PipelineType.GITLAB) = true from rfl,
        truthy_isSome hs, truthy_isSome hh, truthy_isSome hm]
    · intro q hq
      cases q with
      | gitlab => exact absurd rfl hq
      | azdo =>
        simp [providerPred, isAzdo, azdoValid, hC, Except.map,
          show (PipelineType.GITLAB == PipelineType.AZDO) = false from rfl]
      | github =>
        simp [providerPred, isGithubActions, githubActionsValid, hC, Except.map,
          show (PipelineType.GITLAB == PipelineType.GITHUB_ACTIONS) = false
            from rfl]

/-- Witness for C2: a purely GitHub environment yields a GitHub-tagged
Config with isGithubActions true and the other predicates false. -/
theorem getConfig_single_provider_witness :
    ∃ c, getConfig
        { githubToken := some "t", githubManifestRepo := some "m",
          githubHldRepo := some "h", githubSourceRepo := some "s" } =
      Except.ok c ∧
      c.pipelineType = providerPipelineType .github ∧
      c.repoType = providerRepoType .github ∧
      providerPred .github
        { githubToken := some "t", githubManifestRepo := some "m",
          githubHldRepo := some "h", githubSourceRepo := some "s" } =
        Except.ok true ∧
      (∀ q, q ≠ Provider.github → providerPred q
        { githubToken := some "t", githubManifestRepo := some "m",
          githubHldRepo := some "h", githubSourceRepo := some "s" } =
        Except.ok false) :=
  getConfig_single_provider
    { githubToken := some "t", githubManifestRepo := some "m",
      githubHldRepo := some "h", githubSourceRepo := some "s" }
    .github (by decide) (by decide)
    (by intro q hq; cases q with
        | azdo => exact ⟨by decide, by decide⟩
        | github => exact absurd rfl hq
        | gitlab => exact ⟨by decide, by decide⟩)

/-- C5: when getConfig succeeds, isConfigValid returns true exactly when
exactly one of isAzdo, isGithubActions and isGitlab returns true and the four
storage fields of the Config are non-empty strings; in particular it returns
false whenever any one of the four storage fields is the empty string. -/
theorem isConfigValid_spec (e : Env) (c : Config)
    (h : getConfig e = Except.ok c) :
    (isConfigValid e = Except.ok true ↔
      (((isAzdo e = Except.ok true ∧ isGithubActions e = Except.ok false ∧
         isGitlab e = Except.ok false) ∨
        (isAzdo e = Except.ok false ∧ isGithubActions e = Except.ok true ∧
         isGitlab e = Except.ok false) ∨
        (isAzdo e = Except.ok false ∧ isGithubActions e = Except.ok false ∧
         isGitlab e = Except.ok true)) ∧
       c.storageAccountName ≠ "" ∧ c.storageAccessKey ≠ "" ∧
       c.storageTableName ≠ "" ∧ c.storagePartitionKey ≠ "")) ∧
    ((c.storageAccountName = "" ∨ c.storageAccessKey = "" ∨
      c.storageTableName = "" ∨ c.storagePartitionKey = "") →
      isConfigValid e = Except.ok false) := by
  have hA : isAzdo e = Except.ok (azdoValid c) := by rw [isAzdo, h]; rfl
  have hG : isGithubActions e = Except.ok (githubActionsValid c) := by
    rw [isGithubActions, h]; rfl
  have hL : isGitlab e = Except.ok (gitlabValid c) := by rw [isGitlab, h]; rfl
  have hV : isConfigValid e = Except.ok
      ((azdoValid c || githubActionsValid c || gitlabValid c) &&
       !c.storageAccountName.isEmpty && !c.storageAccessKey.isEmpty &&
       !c.storageTableName.isEmpty && !c.storagePartitionKey.isEmpty) := by
    simp only [isConfigValid]
    rw [h, hA, hG, hL]
    rfl
  constructor
  · rw [hA, hG, hL, hV]
    simp only [Except.ok.injEq, ne_empty_iff]
    cases hpt : c.pipelineType <;>
      simp [azdoValid, githubActionsValid, gitlabValid, hpt,
        show (PipelineType.AZDO == PipelineType.AZDO) = true from rfl,
        show (PipelineType.AZDO == PipelineType.GITHUB_ACTIONS) = false
          from rfl,
        show (PipelineType.AZDO == PipelineType.GITLAB) = false from rfl,
        show (PipelineType.GITHUB_ACTIONS == PipelineType.AZDO) = false
          from rfl,
        show (PipelineType.GITHUB_ACTIONS == PipelineType.GITHUB_ACTIONS) =
          true from rfl,
        show (PipelineType.GITHUB_ACTIONS == PipelineType.GITLAB) = false
          from rfl,
        show (PipelineType.GITLAB == PipelineType.AZDO) = false from rfl,
        show (PipelineType.GITLAB == PipelineType.GITHUB_ACTIONS) = false
          from rfl,
        show (PipelineType.GITLAB == PipelineType.GITLAB) = true from rfl] <;>
      tauto
  · intro hst
    rw [hV]
    simp only [Except.ok.injEq]
    rcases hst with hx | hx | hx | hx <;>
      simp [hx, show ("" : String).isEmpty = true from rfl]

/-- Witness for C5: a valid Azure DevOps provider configuration with an
unset storage partition key makes isConfigValid return false. -/
theorem isConfigValid_spec_witness :
    isConfigValid
      { azdoOrg := some "o", azdoProject := some "p",
        azdoManifestRepo := some "m", storageAccountName := some "acc",
        storageAccessKey := some "key", storageTableName := some "tbl" } =
      Except.ok false :=
  (isConfigValid_spec
    { azdoOrg := some "o", azdoProject := some "p",
      azdoManifestRepo := some "m", storageAccountName := some "acc",
      storageAccessKey := some "key", storageTableName := some "tbl" }
    _ rfl).2 (Or.inr (Or.inr (Or.inr rfl)))

/-- C10: in the mixed environment with the Azure DevOps organization and
project set, the Azure DevOps manifest repo unset, and the three GitHub repo
variables set, getConfig succeeds with pipelineType AZDO and repoType GITHUB,
and isAzdo nevertheless returns true: the unchecked cast of the GitHub repo
config to the Azure DevOps shape still finds a defined manifestRepo field, so
the validity predicates do not guarantee that pipeline and repository belong
to the same provider. -/
theorem isAzdo_mixed_provider :
    ∃ c, getConfig
        { azdoOrg := some "org", azdoProject := some "proj",
          githubManifestRepo := some "m", githubHldRepo := some "h",
          githubSourceRepo := some "s" } = Except.ok c ∧
      c.pipelineType = PipelineType.AZDO ∧
      c.repoType = RepositoryType.GITHUB ∧
      c.repoConfig.manifestRepo.isSome = true ∧
      isAzdo
        { azdoOrg := some "org", azdoProject := some "proj",
          githubManifestRepo := some "m", githubHldRepo := some "h",
          githubSourceRepo := some "s" } = Except.ok true := by
  refine ⟨_, rfl, rfl, rfl, rfl, rfl⟩

/-- C1: whenever the selection algorithm of the author resolver yields both
a commit and a repository, so that the external author fetch is invoked, the
access token passed to it is the sourceRepoAccessToken of the resolved
config when that token is present (truthy), and the pipelineAccessToken of
the resolved config otherwise. -/
theorem authorGet_accessToken {R : Type} (resolveURL : String → Option R)
    (cfg : AuthorConfig) (d : DeploymentData R) (r : R) (c : String)
    (t : Option String)
    (h : Author.get resolveURL cfg d = FetchOutcome.fetch r c t) :
    t = if truthy cfg.sourceRepoAccessToken = true
        then cfg.sourceRepoAccessToken else cfg.pipelineAccessToken := by
  rw [← jsOrStr_eq_ite]
  simp only [Author.get] at h
  repeat' split at h
  all_goals
    first
    | exact FetchOutcome.noConfusion h
    | (simp only [FetchOutcome.fetch.injEq] at h
       exact h.2.2.symm)

/-- Witness for C1: a deployment carrying both a commit and a repository on
srcToDockerBuild, fetched with the present source-repo access token. -/
theorem authorGet_accessToken_witness :
    (some "src" : Option String) =
      if truthy (some "src") = true then some "src" else some "pipe" :=
  authorGet_accessToken (R := String) (fun _ => none)
    { sourceRepoAccessToken := some "src", pipelineAccessToken := some "pipe" }
    { srcToDockerBuild := some { sourceVersion := some "c1",
                                 repository := some "R" } }
    "R" "c1" (some "src") rfl

/-- C8: when neither build result carries a repository but the deployment has
a truthy sourceRepo URL that the external resolver maps to a repository
reference, the author resolver uses that repository together with the
srcToDockerBuild sourceVersion specifically: the hldToManifestBuild
sourceVersion is irrelevant to the outcome. -/
theorem authorGet_sourceRepo_commit {R : Type}
    (resolveURL : String → Option R) (cfg : AuthorConfig)
    (d : DeploymentData R) (u : String) (r : R) (c : String)
    (h1 : d.srcToDockerBuild.bind (fun b => b.repository) = none)
    (h2 : d.hldToManifestBuild.bind (fun b => b.repository) = none)
    (h3 : d.sourceRepo = some u) (h4 : u.isEmpty = false)
    (h5 : resolveURL u = some r)
    (h6 : d.srcToDockerBuild.bind (fun b => b.sourceVersion) = some c)
    (h7 : c.isEmpty = false) :
    Author.get resolveURL cfg d =
      FetchOutcome.fetch r c
        (jsOrStr cfg.sourceRepoAccessToken cfg.pipelineAccessToken) := by
  simp [Author.get, jsOrObj, h1, h2, h3, h4, h5, h6, h7]

/-- Witness for C8: srcToDockerBuild.sourceVersion is "c2" and
hldToManifestBuild.sourceVersion is "h9"; the commit used is "c2" and the
repository is derived from the sourceRepo URL. -/
theorem authorGet_sourceRepo_commit_witness :
    Author.get (R := String) (fun u => some ("repo:" ++ u))
      { sourceRepoAccessToken := none, pipelineAccessToken := some "p" }
      { srcToDockerBuild := some { sourceVersion := some "c2" },
        hldToManifestBuild := some { sourceVersion := some "h9" },
        sourceRepo := some "http://x" } =
      FetchOutcome.fetch "repo:http://x" "c2" (jsOrStr none (some "p")) :=
  authorGet_sourceRepo_commit (fun u => some ("repo:" ++ u))
    { sourceRepoAccessToken := none, pipelineAccessToken := some "p" }
    { srcToDockerBuild := some { sourceVersion := some "c2" },
      hldToManifestBuild := some { sourceVersion := some "h9" },
      sourceRepo := some "http://x" }
    "http://x" "repo:http://x" "c2" rfl rfl rfl rfl rfl rfl rfl

/-- C9: when the deployment has a truthy sourceRepo URL that resolves to a
repository reference, srcToDockerBuild is entirely absent and no build
result carries a repository, the author resolver returns the
log-and-return-absent outcome and performs no fetch, even when
hldToManifestBuild.sourceVersion is present: the sourceRepo branch overrides
the commit with the absent srcToDockerBuild sourceVersion, so the
(commit, repo) pair is rejected. -/
theorem authorGet_sourceRepo_without_src_build {R : Type}
    (resolveURL : String → Option R) (cfg : AuthorConfig)
    (d : DeploymentData R) (u : String) (r : R)
    (h1 : d.srcToDockerBuild = none)
    (h2 : d.hldToManifestBuild.bind (fun b => b.repository) = none)
    (h3 : d.sourceRepo = some u) (h4 : u.isEmpty = false)
    (h5 : resolveURL u = some r) :
    Author.get resolveURL cfg d = FetchOutcome.noAuthor := by
  simp [Author.get, jsOrObj, h1, h2, h3, h4, h5]

/-- Witness for C9: sourceRepo resolves, srcToDockerBuild is absent and
hldToManifestBuild.sourceVersion is present, yet the outcome is absent. -/
theorem authorGet_sourceRepo_without_src_build_witness :
    Author.get (R := String) (fun u => some ("repo:" ++ u))
      { pipelineAccessToken := some "p" }
      { hldToManifestBuild := some { sourceVersion := some "h1" },
        sourceRepo := some "http://x" } = FetchOutcome.noAuthor :=
  authorGet_sourceRepo_without_src_build (fun u => some ("repo:" ++ u))
    { pipelineAccessToken := some "p" }
    { hldToManifestBuild := some { sourceVersion := some "h1" },
      sourceRepo := some "http://x" }
    "http://x" "repo:http://x" rfl rfl rfl rfl rfl

end Spektate
